import Mathlib

/-!
# Verification of the database-access middleware core

Shallow embedding of the composable database-access wrappers of the
repository (decorator and context-manager modules):

* `python-decorators-0x01/2-transactional.py` — the `transactional`
  decorator (commit on success, rollback on error, isolation-level
  save/restore) and this module's broken copy of `with_db_connection`,
  whose `return wrapper` statement is indented inside the wrapper body.
* `python-decorators-0x01/1-with_db_connection.py` — the working
  connection-scope decorator.
* `python-context-async-perations-0x02/0-databaseconnection.py` and
  `1-execute.py` — the `DatabaseConnection` and `ExecuteQuery`
  context managers.
* `python-decorators-0x01/4-cache_query.py` — the `cache_query`
  memoization decorator and the composed `fetch_users_with_cache`
  pipeline (`@with_db_connection` outermost, `@cache_query` inside).
* `python-context-async-perations-0x02/3-concurrent.py` — the
  `asyncio.gather`-based concurrent fetch.

The backing store is modelled as a list of user rows; a sqlite
connection is a record of the connection attributes the code touches
(`isolation_level`), the committed store contents, and the pending
explicit-transaction working copy.  Exceptions are explicit values:
`Err` stands for the Python exception object, and a propagated
exception (`PyExc`) also records the statement that raised it and the
implicitly chained in-flight exception (CPython sets `__context__` when
a new exception is raised inside an `except` block).
-/

namespace AlxMiddleware

/-- A `users` table row as used by `2-transactional.py`: `(id, email)`. -/
abbrev Row : Type := Nat × String

/-- Contents of the backing store (the `users` table). -/
abbrev DB : Type := List Row

/-- A Python exception object raised by the wrapped code or the driver:
`dbError` models `sqlite3.Error`, `valueError` models any other
`Exception` (the modules raise `ValueError`). Both `except` arms of
`transactional` and of `with_db_connection` treat the two identically
(rollback / close, then re-raise). -/
inductive Err : Type where
  | dbError (msg : String)
  | valueError (msg : String)
deriving DecidableEq, Repr

/-- Which statement of the `transactional` wrapper raised a propagating
exception: the wrapped operation itself, `conn.commit()`, or
`conn.rollback()`.  The spec's taxonomy calls an exception raised by
commit/rollback a `TransactionError` and one raised by the operation's
query a `QueryError`; the source raises plain `sqlite3.Error` /
`Exception` objects, so the classification lives in the semantics as
the raise site. -/
inductive Origin : Type where
  | operation
  | commit
  | rollback
deriving DecidableEq, Repr

/-- A propagating Python exception: the exception object, the statement
that raised it, and the implicitly chained exception (`__context__`)
that was being handled when it was raised, if any. -/
structure PyExc : Type where
  err : Err
  origin : Origin
  context : Option (Err × Origin)
deriving DecidableEq, Repr

/-- `isTransactionError e` — the exception comes from `conn.commit()` or
`conn.rollback()` itself, i.e. what the spec's error taxonomy names
`TransactionError` (commit or rollback itself failed). -/
def isTransactionError (e : PyExc) : Prop :=
  e.origin = Origin.commit ∨ e.origin = Origin.rollback

instance (e : PyExc) : Decidable (isTransactionError e) := by
  unfold isTransactionError; infer_instance

/-- A sqlite connection as the wrappers see it: the one attribute the
code assigns (`isolation_level`), the committed store contents visible
to any re-read on a fresh connection (`db`), and the working copy of
the store while an explicit transaction is open (`pending`;
`none` when no explicit transaction is in progress). -/
structure Conn : Type where
  isolation_level : Option String
  db : DB
  pending : Option DB
deriving DecidableEq, Repr

/-- `sqlite3.connect DATABASE_NAME` on a store holding `db`: default
isolation level (the empty string, sqlite's deferred mode), no
transaction in progress. -/
def connect (db : DB) : Conn :=
  { isolation_level := some "", db := db, pending := none }

/-- Fault injection for the backing store's transaction management:
`commitFail = some m` makes `conn.commit()` raise `sqlite3.Error m`,
`rollbackFail = some m` makes `conn.rollback()` raise
`sqlite3.Error m`; `none` means the call succeeds. -/
structure TxnFaults : Type where
  commitFail : Option String
  rollbackFail : Option String
deriving DecidableEq, Repr

/-- The fault-free backing store: commit and rollback always succeed. -/
def noFaults : TxnFaults := { commitFail := none, rollbackFail := none }

/-- A wrapped database operation for `transactional`: it runs against
the open transaction's working copy of the store and either returns a
value or raises; the store writes it performed before raising are kept
in the working copy (to be rolled back), so the operation yields the
working copy it produced together with its outcome.
`update_user_email_and_fail` is the source's example: it performs the
`UPDATE` and then raises `ValueError`. -/
abbrev TxnOp (ρ : Type) : Type := DB → DB × Except Err ρ

/-- The `transactional` decorator's wrapper
(`2-transactional.py`, lines 42-73), traced statement by statement:

1. `original_isolation_level = conn.isolation_level` — capture;
2. `conn.isolation_level = None` — disable autocommit;
3. `cursor.execute("BEGIN TRANSACTION")` — open an explicit
   transaction: the working copy starts from the committed store;
4. `result = func(conn, *args, **kwargs)` — run the operation on the
   working copy;
5. on normal return, `conn.commit()` publishes the working copy; if the
   commit raises `sqlite3.Error`, the `except` arm rolls back and
   re-raises the commit error (if that rollback itself raises, the new
   exception propagates with the commit error as `__context__`);
6. if the operation raises, the matching `except` arm calls
   `conn.rollback()` and re-raises the operation's error unchanged
   (if the rollback itself raises, the rollback error propagates with
   the operation's error as `__context__`);
7. the `finally` block restores `conn.isolation_level` on every path.
-/
def transactional {ρ : Type} (f : TxnFaults) (op : TxnOp ρ) (c : Conn) :
    Except PyExc ρ × Conn :=
  let orig := c.isolation_level
  let c2 : Conn := { c with isolation_level := none, pending := some c.db }
  match op c.db with
  | (db', out) =>
    let c3 : Conn := { c2 with pending := some db' }
    let step : Except PyExc ρ × Conn :=
      match out with
      | Except.ok r =>
        match f.commitFail with
        | none =>
          (Except.ok r, { c3 with db := db', pending := none })
        | some m =>
          match f.rollbackFail with
          | none =>
            (Except.error { err := Err.dbError m, origin := Origin.commit,
                            context := none },
             { c3 with pending := none })
          | some m2 =>
            (Except.error { err := Err.dbError m2, origin := Origin.rollback,
                            context := some (Err.dbError m, Origin.commit) },
             c3)
      | Except.error e =>
        match f.rollbackFail with
        | none =>
          (Except.error { err := e, origin := Origin.operation, context := none },
           { c3 with pending := none })
        | some m2 =>
          (Except.error { err := Err.dbError m2, origin := Origin.rollback,
                          context := some (e, Origin.operation) },
           c3)
    (step.1, { step.2 with isolation_level := orig })

/-- The body of `update_user_email_and_fail` (`2-transactional.py`,
lines 128-132): perform the `UPDATE users SET email = ? WHERE id = ?`
write, then raise `ValueError`. -/
def update_user_email_and_fail (user_id : Nat) (new_email : String) : TxnOp Unit :=
  fun db =>
    (db.map (fun r => if r.1 = user_id then (r.1, new_email) else r),
     Except.error (Err.valueError "Simulated error during update to force rollback!"))

/-- The body of `update_user_email` (`2-transactional.py`, lines 79-88):
perform the `UPDATE` and return normally (`None`). -/
def update_user_email_op (user_id : Nat) (new_email : String) : TxnOp Unit :=
  fun db =>
    (db.map (fun r => if r.1 = user_id then (r.1, new_email) else r),
     Except.ok ())

/-- Acquire/release accounting for a connection-scope run: how many
times `sqlite3.connect` handed out a handle and how many times
`conn.close()` was called during the run. -/
structure ConnTrace : Type where
  acquired : Nat
  released : Nat
deriving DecidableEq, Repr

/-- The working `with_db_connection` decorator's wrapper
(`1-with_db_connection.py`, lines 15-31), traced:
`conn = None`; in the `try`, `conn = sqlite3.connect(DATABASE_NAME)`
(`connectFail = some m` models that call raising `sqlite3.Error m`,
leaving `conn` still `None`); the decorated function runs on the
connection; both `except` arms only log and re-raise; the `finally`
closes `conn` when it is not `None`. -/
def with_db_connection_run {ρ : Type} (connectFail : Option String)
    (func : DB → Except Err ρ) (db : DB) : Except Err ρ × ConnTrace :=
  match connectFail with
  | some m =>
    -- `conn` is still None: the `finally` skips `conn.close()`
    (Except.error (Err.dbError m), { acquired := 0, released := 0 })
  | none =>
    match func db with
    | Except.ok r => (Except.ok r, { acquired := 1, released := 1 })
    | Except.error e => (Except.error e, { acquired := 1, released := 1 })

/-- The `DatabaseConnection` context manager under a `with` statement
(`0-databaseconnection.py`): `__enter__` connects and returns the
connection, the body runs, `__exit__` closes the connection whether the
body returned or raised (and does not suppress the exception). -/
def databaseConnection_with_run {ρ : Type} (body : DB → Except Err ρ)
    (db : DB) : Except Err ρ × ConnTrace :=
  match body db with
  | Except.ok r => (Except.ok r, { acquired := 1, released := 1 })
  | Except.error e => (Except.error e, { acquired := 1, released := 1 })

/-- The `ExecuteQuery` context manager under a `with` statement
(`1-execute.py`).  `__enter__` connects, then runs
`cursor.execute(self.query, self.params)` and `fetchall` with no `try`
around them — `queryResult` summarizes that execution (rows, or the
`sqlite3.Error` it raises).  When `__enter__` raises, Python never
calls `__exit__`, so the freshly opened connection is not closed; when
`__enter__` returns the rows, the body runs and `__exit__` closes the
connection on both the normal and the raising path. -/
def executeQuery_with_run {ρ : Type} (queryResult : Except Err (List Row))
    (body : List Row → Except Err ρ) : Except Err ρ × ConnTrace :=
  match queryResult with
  | Except.error e =>
    -- `cursor.execute` raised inside `__enter__`: connection leaked
    (Except.error e, { acquired := 1, released := 0 })
  | Except.ok rows =>
    match body rows with
    | Except.ok r => (Except.ok r, { acquired := 1, released := 1 })
    | Except.error e => (Except.error e, { acquired := 1, released := 1 })

/-- Process state of the `4-cache_query.py` module: the module-level
`query_cache` dict (an association list keyed by the raw query string),
plus instrumentation — how many times the undecorated
`fetch_users_with_cache` body (the `compute` of the spec) ran, and how
many connections were opened and closed. -/
structure CacheState : Type where
  cache : List (String × List Row)
  computeCount : Nat
  opened : Nat
  closed : Nat
deriving DecidableEq, Repr

/-- One call of the composed pipeline of `4-cache_query.py`
(`fetch_users_with_cache = with_db_connection(cache_query(body))` —
decorators apply bottom-up, so `with_db_connection` is the OUTER
layer, lines 36-38), traced:

1. the `with_db_connection` wrapper runs first and opens a connection
   unconditionally (`sqlite3.connect("example.db")`);
2. the `cache_query` wrapper then reads `query = kwargs.get("query")`
   and checks `query in query_cache`: on a hit it returns the stored
   result without calling the body;
3. on a miss it calls the body — `cursor.execute(query)` /
   `fetchall()`, modelled by `execQuery`, which is given the current
   invocation count so a later invocation may behave differently and
   may raise — and stores the result only on success
   (`query_cache[query] = result` runs after the call returns);
4. the outer wrapper's `finally` closes the connection on every path
   and re-raises any error. -/
def fetch_users_with_cache (execQuery : Nat → String → Except Err (List Row))
    (query : String) (s : CacheState) : Except Err (List Row) × CacheState :=
  let s1 : CacheState := { s with opened := s.opened + 1 }
  match s1.cache.lookup query with
  | some rows =>
    (Except.ok rows, { s1 with closed := s1.closed + 1 })
  | none =>
    match execQuery s1.computeCount query with
    | Except.ok rows =>
      (Except.ok rows,
       { s1 with cache := (query, rows) :: s1.cache,
                 computeCount := s1.computeCount + 1,
                 closed := s1.closed + 1 })
    | Except.error e =>
      (Except.error e,
       { s1 with computeCount := s1.computeCount + 1,
                 closed := s1.closed + 1 })

/-- The cache key the `cache_query` wrapper uses for a call
(`4-cache_query.py`, lines 24-25): `kwargs.get("query")` — the raw
query text alone; the call's bound parameters never enter the key. -/
def cache_query_key (query : String) (_params : List Nat) : String :=
  query

/-- The `cache_query` wrapper applied to a parameterized operation, as
the spec's scenario exercises it: the call carries a query text and a
tuple of bound parameters, the key is `cache_query_key`, and on a miss
the underlying compute runs on both. -/
def cache_query_param_run (compute : String → List Nat → List Row)
    (query : String) (params : List Nat) (s : CacheState) :
    List Row × CacheState :=
  match s.cache.lookup (cache_query_key query params) with
  | some rows => (rows, s)
  | none =>
    let rows := compute query params
    (rows, { s with cache := (cache_query_key query params, rows) :: s.cache,
                    computeCount := s.computeCount + 1 })

/-- A parameterized point lookup, `SELECT * FROM users WHERE id = ?`:
returns the rows of the store whose id matches the single bound
parameter. -/
def select_user_by_id (db : DB) : String → List Nat → List Row :=
  fun _query params => db.filter (fun r => params.contains r.1)

/-- A `users` table row as used by the context/async module
(`3-concurrent.py`): `(id, name, age)`. -/
abbrev Row3 : Type := Nat × String × Nat

/-- Contents of the backing store for the async module. -/
abbrev DB3 : Type := List Row3

/-- `async_fetch_users` (`3-concurrent.py`, lines 6-10): open a private
connection, run `SELECT * FROM users`, return all rows. -/
def async_fetch_users (db : DB3) : List Row3 :=
  db

/-- `async_fetch_older_users` (`3-concurrent.py`, lines 12-16): open a
private connection, run `SELECT * FROM users WHERE age > 40`. -/
def async_fetch_older_users (db : DB3) : List Row3 :=
  db.filter (fun r => 40 < r.2.2)

/-- `asyncio.gather`'s result slots: each awaitable is given a slot
indexed by its position in the argument list; the scheduler completes
the awaitables in an arbitrary order (`schedule` lists the indices in
physical completion order, an index completing when it first appears)
and each completion writes that task's result into that task's own
slot, never appended in completion order. -/
def gatherSlots {ρ : Type} (tasks : List ρ) (schedule : List Nat) :
    List (Option ρ) :=
  schedule.foldl (fun acc i => acc.set i tasks[i]?)
    (List.replicate tasks.length none)

/-- `await asyncio.gather(...)`: suspends until every slot is filled —
if some task never completes under `schedule`, the await never returns
(`none`) — and then yields the slot contents in task-argument order. -/
def gather {ρ : Type} (tasks : List ρ) (schedule : List Nat) :
    Option (List ρ) :=
  let slots := gatherSlots tasks schedule
  if slots.all Option.isSome then some slots.reduceOption else none

/-- `fetch_concurrently` (`3-concurrent.py`, lines 18-22): gather the
two independent fetches — all users, then users older than 40 — each
on its own connection; the results are destructured positionally as
`users, older_users`. -/
def fetch_concurrently (db : DB3) (schedule : List Nat) :
    Option (List (List Row3)) :=
  gather [async_fetch_users db, async_fetch_older_users db] schedule

/-- Keyword arguments of the update operations in `2-transactional.py`:
`(user_id, new_email)`. -/
abbrev UserArgs : Type := Nat × String

/-- The `wrapper` closure that the `2-transactional.py` copy of
`with_db_connection` builds (lines 15-31): connect to the store, run
the decorated function on the fresh connection, close on exit. -/
def with_db_connection_v2_wrapper {β α : Type} (func : Conn → β → α) :
    DB → β → α :=
  fun db args => func (connect db) args

/-- The `2-transactional.py` copy of `with_db_connection` (lines
10-32).  Unlike the Task-1 original, its `return wrapper` statement is
indented inside `wrapper`'s own body (line 32), where it sits after
the `try`/`except`/`finally` and is unreachable; the decorator
factory's body therefore defines `wrapper` and then ends without
executing any `return`, so in Python the call
`with_db_connection(func)` evaluates to `None`. -/
def with_db_connection_v2 {β α : Type} (func : Conn → β → α) :
    Option (DB → β → α) :=
  let _wrapper := with_db_connection_v2_wrapper func
  none

/-- Outcome of calling a Python name that may be bound to `None`:
`None(...)` raises `TypeError: 'NoneType' object is not callable`. -/
inductive CallResult (ρ : Type) : Type where
  | typeErrorNoneNotCallable
  | returns (r : ρ)
deriving DecidableEq, Repr

/-- Invoke a possibly-`None` decorated function on the ambient store
and its keyword arguments. -/
def pyCall {β ρ : Type} (f : Option (DB → β → ρ)) (db : DB) (args : β) :
    CallResult ρ :=
  match f with
  | none => CallResult.typeErrorNoneNotCallable
  | some g => CallResult.returns (g db args)

/-- `update_user_email` as bound in `2-transactional.py` (lines 77-88):
the raw body under `@transactional`, then under the module's broken
`@with_db_connection`. -/
def update_user_email_decorated :
    Option (DB → UserArgs → Except PyExc Unit × Conn) :=
  with_db_connection_v2 (fun conn args =>
    transactional noFaults (update_user_email_op args.1 args.2) conn)

/-- `get_user_email` as bound in `2-transactional.py` (lines 90-96):
the raw `SELECT email FROM users WHERE id = ?` body under the module's
broken `@with_db_connection` only. -/
def get_user_email_decorated : Option (DB → Nat → Option String) :=
  with_db_connection_v2 (fun conn uid =>
    (conn.db.lookup uid))

/-- `update_user_email_and_fail` as bound in `2-transactional.py`
(lines 126-132): the failing update body under `@transactional`, then
under the module's broken `@with_db_connection`. -/
def update_user_email_and_fail_decorated :
    Option (DB → UserArgs → Except PyExc Unit × Conn) :=
  with_db_connection_v2 (fun conn args =>
    transactional noFaults (update_user_email_and_fail args.1 args.2) conn)

/-- C1: On a fault-free backing store, the `transactional` wrapper is
atomic: if the wrapped operation raises any error, the transaction is
rolled back — the store visible after the call is identical to the
store before the call — and the operation's own error is re-raised
unchanged (same exception object, no chained replacement); if the
operation returns normally, the wrapper commits the operation's writes
and returns the operation's result. -/
theorem transactional_commit_rollback_semantics {ρ : Type} (f : TxnFaults)
    (op : TxnOp ρ) (c : Conn)
    (hc : f.commitFail = none) (hr : f.rollbackFail = none) :
    (∀ (db' : DB) (e : Err), op c.db = (db', Except.error e) →
      (transactional f op c).1 =
        Except.error { err := e, origin := Origin.operation, context := none } ∧
      (transactional f op c).2.db = c.db) ∧
    (∀ (db' : DB) (r : ρ), op c.db = (db', Except.ok r) →
      (transactional f op c).1 = Except.ok r ∧
      (transactional f op c).2.db = db') := by
  constructor
  · intro db' e hop
    simp [transactional, hop, hc, hr]
  · intro db' r hop
    simp [transactional, hop, hc, hr]

/-- C1 witness: the spec's concrete scenario — the store holds
`(id = 2, email = "old@x.com")`; `update_user_email_and_fail` writes
`"new@x.com"` and then raises; after the call the visible store still
holds `"old@x.com"` and the `ValueError` propagates unchanged. -/
theorem transactional_commit_rollback_semantics_witness :
    (transactional noFaults (update_user_email_and_fail 2 "new@x.com")
        (connect [(2, "old@x.com")])).1 =
      Except.error { err := Err.valueError
                       "Simulated error during update to force rollback!",
                     origin := Origin.operation, context := none } ∧
    (transactional noFaults (update_user_email_and_fail 2 "new@x.com")
        (connect [(2, "old@x.com")])).2.db = [(2, "old@x.com")] :=
  (transactional_commit_rollback_semantics noFaults
      (update_user_email_and_fail 2 "new@x.com")
      (connect [(2, "old@x.com")]) rfl rfl).1
    [(2, "new@x.com")]
    (Err.valueError "Simulated error during update to force rollback!") rfl

/-- C8: If the wrapped operation raises and the subsequent
`conn.rollback()` in the `except` arm itself fails, the exception
surfaced to the caller is the rollback failure — a `TransactionError`
in the spec's taxonomy, distinct from the operation's error site — and
it takes precedence over the operation's error, which is retained as
the chained `__context__` rather than discarded. -/
theorem transactional_cleanup_failure_precedence {ρ : Type} (f : TxnFaults)
    (op : TxnOp ρ) (c : Conn) (m2 : String)
    (hr : f.rollbackFail = some m2)
    (db' : DB) (e : Err) (hop : op c.db = (db', Except.error e)) :
    (transactional f op c).1 =
      Except.error { err := Err.dbError m2, origin := Origin.rollback,
                     context := some (e, Origin.operation) } ∧
    isTransactionError { err := Err.dbError m2, origin := Origin.rollback,
                         context := some (e, Origin.operation) } ∧
    (Origin.rollback : Origin) ≠ Origin.operation := by
  refine ⟨?_, Or.inr rfl, by decide⟩
  simp [transactional, hop, hr]

/-- C8 witness: injected rollback failure (`disk I/O error`) while the
operation's `ValueError` is in flight: the rollback failure propagates
with the operation's error chained as context. -/
theorem transactional_cleanup_failure_precedence_witness :
    (transactional { commitFail := none, rollbackFail := some "disk I/O error" }
        (update_user_email_and_fail 2 "new@x.com")
        (connect [(2, "old@x.com")])).1 =
      Except.error { err := Err.dbError "disk I/O error",
                     origin := Origin.rollback,
                     context := some
                       (Err.valueError
                          "Simulated error during update to force rollback!",
                        Origin.operation) } ∧
    isTransactionError { err := Err.dbError "disk I/O error",
                         origin := Origin.rollback,
                         context := some
                           (Err.valueError
                              "Simulated error during update to force rollback!",
                            Origin.operation) } ∧
    (Origin.rollback : Origin) ≠ Origin.operation :=
  transactional_cleanup_failure_precedence
    { commitFail := none, rollbackFail := some "disk I/O error" }
    (update_user_email_and_fail 2 "new@x.com")
    (connect [(2, "old@x.com")]) "disk I/O error" rfl
    [(2, "new@x.com")]
    (Err.valueError "Simulated error during update to force rollback!") rfl

/-- C9: On every path through the `transactional` wrapper — commit,
rollback, commit failure, even rollback failure — the `finally` block
restores the connection's `isolation_level` captured at entry before
control returns; and whenever rollback succeeds, no explicit
transaction is left open, so apart from the committed store contents
the connection leaves the wrapper with the attributes it entered with. -/
theorem transactional_restores_isolation {ρ : Type} (f : TxnFaults)
    (op : TxnOp ρ) (c : Conn) :
    (transactional f op c).2.isolation_level = c.isolation_level ∧
    (f.rollbackFail = none → (transactional f op c).2.pending = none) := by
  constructor
  · rcases hop : op c.db with ⟨db', out⟩
    cases out <;> cases hcf : f.commitFail <;> cases hrf : f.rollbackFail <;>
      simp [transactional, hop, hcf, hrf]
  · intro hr
    rcases hop : op c.db with ⟨db', out⟩
    cases out <;> cases hcf : f.commitFail <;>
      simp [transactional, hop, hcf, hr]

/-- C9 witness: a concrete run (successful update on a fault-free
store) leaves `isolation_level` at its entry value and no transaction
open. -/
theorem transactional_restores_isolation_witness :
    (transactional noFaults (update_user_email_op 1 "b@x.com")
        (connect [(1, "a@x.com")])).2.isolation_level =
      (connect [(1, "a@x.com")]).isolation_level ∧
    (transactional noFaults (update_user_email_op 1 "b@x.com")
        (connect [(1, "a@x.com")])).2.pending = none :=
  ⟨(transactional_restores_isolation noFaults (update_user_email_op 1 "b@x.com")
      (connect [(1, "a@x.com")])).1,
   (transactional_restores_isolation noFaults (update_user_email_op 1 "b@x.com")
      (connect [(1, "a@x.com")])).2 rfl⟩

/-- C2 counterexample: a call through the `ExecuteQuery` context
manager whose query raises (`no such table: users`) acquires one
connection and releases none — `__enter__` raises after
`sqlite3.connect`, so `__exit__` never runs — refuting "released
exactly once" on the raising path. -/
theorem execute_query_leaks_connection_on_query_error :
    (executeQuery_with_run (ρ := List Row)
        (Except.error (Err.dbError "no such table: users"))
        Except.ok).2.acquired = 1 ∧
    (executeQuery_with_run (ρ := List Row)
        (Except.error (Err.dbError "no such table: users"))
        Except.ok).2.released = 0 ∧
    (executeQuery_with_run (ρ := List Row)
        (Except.error (Err.dbError "no such table: users"))
        Except.ok).2.released ≠ 1 :=
  ⟨rfl, rfl, by decide⟩

/-- C2 (amended): once a connection is successfully acquired,
`with_db_connection` and `DatabaseConnection` acquire exactly one
connection and release it exactly once whether the operation returns
or raises; `ExecuteQuery` guarantees the same only when the query
execution inside `__enter__` succeeds — when it raises, the acquired
connection is never released. -/
theorem connection_scope_release {ρ : Type} (func : DB → Except Err ρ)
    (db : DB) (queryResult : Except Err (List Row))
    (body : List Row → Except Err ρ) (rows : List Row)
    (hq : queryResult = Except.ok rows) :
    (with_db_connection_run none func db).2 =
      { acquired := 1, released := 1 } ∧
    (databaseConnection_with_run func db).2 =
      { acquired := 1, released := 1 } ∧
    (executeQuery_with_run queryResult body).2 =
      { acquired := 1, released := 1 } := by
  refine ⟨?_, ?_, ?_⟩
  · cases h : func db <;> simp [with_db_connection_run, h]
  · cases h : func db <;> simp [databaseConnection_with_run, h]
  · subst hq
    cases h : body rows <;> simp [executeQuery_with_run, h]

/-- C2 witness: a concrete read through each of the three scopes on a
one-row store, with the query in `ExecuteQuery` succeeding. -/
theorem connection_scope_release_witness :
    (with_db_connection_run none
        (fun db => Except.ok db) [(1, "a@x.com")]).2 =
      { acquired := 1, released := 1 } ∧
    (databaseConnection_with_run
        (fun db => Except.ok db) [(1, "a@x.com")]).2 =
      { acquired := 1, released := 1 } ∧
    (executeQuery_with_run (Except.ok [(1, "a@x.com")]) Except.ok).2 =
      { acquired := 1, released := 1 } :=
  connection_scope_release (fun db => Except.ok db) [(1, "a@x.com")]
    (Except.ok [(1, "a@x.com")]) Except.ok [(1, "a@x.com")] rfl

/-- C3 counterexample: with `"SELECT * FROM users"` already cached, a
call to the composed `fetch_users_with_cache` pipeline is a hit — the
stored rows come back and the body is never invoked — yet one
connection is opened during the call, because `@with_db_connection`
is the outermost decorator, refuting "no connection is opened". -/
theorem cache_hit_still_opens_connection :
    (fetch_users_with_cache (fun _ _ => Except.ok [])
        "SELECT * FROM users"
        { cache := [("SELECT * FROM users", [(1, "a@x.com")])],
          computeCount := 0, opened := 0, closed := 0 }).1 =
      Except.ok [(1, "a@x.com")] ∧
    (fetch_users_with_cache (fun _ _ => Except.ok [])
        "SELECT * FROM users"
        { cache := [("SELECT * FROM users", [(1, "a@x.com")])],
          computeCount := 0, opened := 0, closed := 0 }).2.computeCount = 0 ∧
    (fetch_users_with_cache (fun _ _ => Except.ok [])
        "SELECT * FROM users"
        { cache := [("SELECT * FROM users", [(1, "a@x.com")])],
          computeCount := 0, opened := 0, closed := 0 }).2.opened = 1 ∧
    (fetch_users_with_cache (fun _ _ => Except.ok [])
        "SELECT * FROM users"
        { cache := [("SELECT * FROM users", [(1, "a@x.com")])],
          computeCount := 0, opened := 0, closed := 0 }).2.opened ≠ 0 := by
  refine ⟨?_, ?_, ?_, ?_⟩ <;> simp [fetch_users_with_cache, List.lookup]

/-- C3 (amended): for every call whose query is already cached, the
composed pipeline returns the stored result and does not invoke the
underlying compute body, but — because the connection decorator is the
outermost layer — it still opens (and closes) exactly one connection;
no transaction layer exists in this pipeline at all. -/
theorem cache_hit_skips_compute_but_opens_connection
    (execQuery : Nat → String → Except Err (List Row)) (query : String)
    (s : CacheState) (rows : List Row)
    (hhit : s.cache.lookup query = some rows) :
    fetch_users_with_cache execQuery query s =
      (Except.ok rows,
       { s with opened := s.opened + 1, closed := s.closed + 1 }) := by
  simp [fetch_users_with_cache, hhit]

/-- C3 witness: the amended statement at the counterexample's input. -/
theorem cache_hit_skips_compute_but_opens_connection_witness :
    fetch_users_with_cache (fun _ _ => Except.ok [])
        "SELECT * FROM users"
        { cache := [("SELECT * FROM users", [(1, "a@x.com")])],
          computeCount := 0, opened := 0, closed := 0 } =
      (Except.ok [(1, "a@x.com")],
       { cache := [("SELECT * FROM users", [(1, "a@x.com")])],
         computeCount := 0, opened := 1, closed := 1 }) :=
  cache_hit_skips_compute_but_opens_connection
    (fun _ _ => Except.ok []) "SELECT * FROM users"
    { cache := [("SELECT * FROM users", [(1, "a@x.com")])],
      computeCount := 0, opened := 0, closed := 0 }
    [(1, "a@x.com")] rfl

/-- C4 (failing input): the key `cache_query` computes is the raw
query text alone, so two calls binding different parameters (`id = 1`
then `id = 2`) to `"SELECT * FROM users WHERE id = ?"` share one key;
the second call replays the first call's cached rows — user 1's row —
instead of the independently computed row for user 2, and the compute
body runs only once across both calls. -/
theorem cache_key_ignores_params_at_failing_input :
    cache_query_key "SELECT * FROM users WHERE id = ?" [1] =
      cache_query_key "SELECT * FROM users WHERE id = ?" [2] ∧
    (cache_query_param_run
        (select_user_by_id [(1, "a@x.com"), (2, "b@x.com")])
        "SELECT * FROM users WHERE id = ?" [1]
        { cache := [], computeCount := 0, opened := 0, closed := 0 }).1 =
      [(1, "a@x.com")] ∧
    (cache_query_param_run
        (select_user_by_id [(1, "a@x.com"), (2, "b@x.com")])
        "SELECT * FROM users WHERE id = ?" [2]
        (cache_query_param_run
          (select_user_by_id [(1, "a@x.com"), (2, "b@x.com")])
          "SELECT * FROM users WHERE id = ?" [1]
          { cache := [], computeCount := 0, opened := 0,
            closed := 0 }).2).1 = [(1, "a@x.com")] ∧
    select_user_by_id [(1, "a@x.com"), (2, "b@x.com")]
        "SELECT * FROM users WHERE id = ?" [2] = [(2, "b@x.com")] ∧
    (cache_query_param_run
        (select_user_by_id [(1, "a@x.com"), (2, "b@x.com")])
        "SELECT * FROM users WHERE id = ?" [2]
        (cache_query_param_run
          (select_user_by_id [(1, "a@x.com"), (2, "b@x.com")])
          "SELECT * FROM users WHERE id = ?" [1]
          { cache := [], computeCount := 0, opened := 0,
            closed := 0 }).2).2.computeCount = 1 := by
  refine ⟨rfl, ?_, ?_, ?_, ?_⟩ <;>
    simp [cache_query_param_run, cache_query_key, select_user_by_id,
          List.lookup, List.filter]

/-- C5: Cached execution is idempotent in its key: starting from a
state where the query is absent and the query execution succeeds,
calling the composed cached operation twice with the same query runs
the underlying compute body exactly once, and the second call returns
exactly the first call's result. -/
theorem cache_idempotent_replay
    (execQuery : Nat → String → Except Err (List Row)) (query : String)
    (s : CacheState) (rows : List Row)
    (hmiss : s.cache.lookup query = none)
    (hok : execQuery s.computeCount query = Except.ok rows) :
    (fetch_users_with_cache execQuery query s).1 = Except.ok rows ∧
    (fetch_users_with_cache execQuery query
        (fetch_users_with_cache execQuery query s).2).1 =
      (fetch_users_with_cache execQuery query s).1 ∧
    (fetch_users_with_cache execQuery query
        (fetch_users_with_cache execQuery query s).2).2.computeCount =
      s.computeCount + 1 := by
  have h1 : fetch_users_with_cache execQuery query s =
      (Except.ok rows,
       { s with cache := (query, rows) :: s.cache,
                computeCount := s.computeCount + 1,
                opened := s.opened + 1, closed := s.closed + 1 }) := by
    simp [fetch_users_with_cache, hmiss, hok]
  rw [h1]
  refine ⟨rfl, ?_, ?_⟩ <;> simp [fetch_users_with_cache, List.lookup]

/-- C5 witness: two calls of `"SELECT * FROM users"` from the empty
cache, against an executor that would return different rows if it were
invoked a second time: the body runs once and the second call replays
the first result. -/
theorem cache_idempotent_replay_witness :
    (fetch_users_with_cache
        (fun n _ => Except.ok (if n = 0 then [(1, "a@x.com")] else []))
        "SELECT * FROM users"
        { cache := [], computeCount := 0, opened := 0, closed := 0 }).1 =
      Except.ok [(1, "a@x.com")] ∧
    (fetch_users_with_cache
        (fun n _ => Except.ok (if n = 0 then [(1, "a@x.com")] else []))
        "SELECT * FROM users"
        (fetch_users_with_cache
          (fun n _ => Except.ok (if n = 0 then [(1, "a@x.com")] else []))
          "SELECT * FROM users"
          { cache := [], computeCount := 0, opened := 0,
            closed := 0 }).2).1 =
      (fetch_users_with_cache
        (fun n _ => Except.ok (if n = 0 then [(1, "a@x.com")] else []))
        "SELECT * FROM users"
        { cache := [], computeCount := 0, opened := 0, closed := 0 }).1 ∧
    (fetch_users_with_cache
        (fun n _ => Except.ok (if n = 0 then [(1, "a@x.com")] else []))
        "SELECT * FROM users"
        (fetch_users_with_cache
          (fun n _ => Except.ok (if n = 0 then [(1, "a@x.com")] else []))
          "SELECT * FROM users"
          { cache := [], computeCount := 0, opened := 0,
            closed := 0 }).2).2.computeCount = 0 + 1 :=
  cache_idempotent_replay
    (fun n _ => Except.ok (if n = 0 then [(1, "a@x.com")] else []))
    "SELECT * FROM users"
    { cache := [], computeCount := 0, opened := 0, closed := 0 }
    [(1, "a@x.com")] rfl rfl

/-- C6: Errors are never memoized: when the query is absent from the
cache and the query execution raises, the error propagates to the
caller, the cache mapping is unchanged (the key stays absent), and a
subsequent call with the same query invokes the compute body again. -/
theorem cache_error_not_memoized
    (execQuery : Nat → String → Except Err (List Row)) (query : String)
    (s : CacheState) (e : Err)
    (hmiss : s.cache.lookup query = none)
    (herr : execQuery s.computeCount query = Except.error e) :
    (fetch_users_with_cache execQuery query s).1 = Except.error e ∧
    (fetch_users_with_cache execQuery query s).2.cache = s.cache ∧
    (fetch_users_with_cache execQuery query s).2.cache.lookup query =
      none ∧
    (fetch_users_with_cache execQuery query
        (fetch_users_with_cache execQuery query s).2).2.computeCount =
      s.computeCount + 2 := by
  have h1 : fetch_users_with_cache execQuery query s =
      (Except.error e,
       { s with computeCount := s.computeCount + 1,
                opened := s.opened + 1, closed := s.closed + 1 }) := by
    simp [fetch_users_with_cache, hmiss, herr]
  rw [h1]
  refine ⟨rfl, rfl, hmiss, ?_⟩
  cases h2 : execQuery (s.computeCount + 1) query <;>
    simp [fetch_users_with_cache, hmiss, h2]

/-- C6 witness: the executor raises `no such table: users` on its
first invocation and succeeds on the second: the first call propagates
the error and caches nothing; the second call re-invokes the body. -/
theorem cache_error_not_memoized_witness :
    (fetch_users_with_cache
        (fun n _ => if n = 0
          then Except.error (Err.dbError "no such table: users")
          else Except.ok [])
        "SELECT * FROM users"
        { cache := [], computeCount := 0, opened := 0, closed := 0 }).1 =
      Except.error (Err.dbError "no such table: users") ∧
    (fetch_users_with_cache
        (fun n _ => if n = 0
          then Except.error (Err.dbError "no such table: users")
          else Except.ok [])
        "SELECT * FROM users"
        { cache := [], computeCount := 0, opened := 0,
          closed := 0 }).2.cache = [] ∧
    (fetch_users_with_cache
        (fun n _ => if n = 0
          then Except.error (Err.dbError "no such table: users")
          else Except.ok [])
        "SELECT * FROM users"
        { cache := [], computeCount := 0, opened := 0,
          closed := 0 }).2.cache.lookup "SELECT * FROM users" = none ∧
    (fetch_users_with_cache
        (fun n _ => if n = 0
          then Except.error (Err.dbError "no such table: users")
          else Except.ok [])
        "SELECT * FROM users"
        (fetch_users_with_cache
          (fun n _ => if n = 0
            then Except.error (Err.dbError "no such table: users")
            else Except.ok [])
          "SELECT * FROM users"
          { cache := [], computeCount := 0, opened := 0,
            closed := 0 }).2).2.computeCount = 0 + 2 :=
  cache_error_not_memoized
    (fun n _ => if n = 0
      then Except.error (Err.dbError "no such table: users")
      else Except.ok [])
    "SELECT * FROM users"
    { cache := [], computeCount := 0, opened := 0, closed := 0 }
    (Err.dbError "no such table: users") rfl rfl

/-- Slot contents after the scheduler has run a completion order over
the gather slots: a slot holds its own task's result exactly when its
index has completed, independently of where in the order it completed. -/
theorem gatherSlots_foldl_getElem? {ρ : Type} (tasks : List ρ) :
    ∀ (schedule : List Nat) (acc : List (Option ρ)) (j : Nat),
    (schedule.foldl (fun acc i => acc.set i tasks[i]?) acc)[j]? =
      if j ∈ schedule ∧ j < acc.length then some tasks[j]? else acc[j]? := by
  intro schedule
  induction schedule with
  | nil => intro acc j; simp
  | cons i rest ih =>
    intro acc j
    rw [List.foldl_cons, ih]
    rw [List.length_set, List.getElem?_set]
    by_cases hr : j ∈ rest ∧ j < acc.length
    · simp [hr, hr.1, hr.2]
    · rcases eq_or_ne i j with hij | hij
      · subst hij
        by_cases hlen : i < acc.length
        · have hnotmem : i ∉ rest := fun hm => hr ⟨hm, hlen⟩
          simp [hnotmem, hlen]
        · have hnone : acc[i]? = none :=
            List.getElem?_eq_none (Nat.le_of_not_lt hlen)
          simp [hr, hlen, hnone]
      · have hmem : (j ∈ i :: rest) ↔ (j ∈ rest) := by
          simp [List.mem_cons, Ne.symm hij]
        simp [hr, hij, hmem]

/-- `reduceOption` undoes `map some`. -/
theorem reduceOption_map_some {ρ : Type} (l : List ρ) :
    (l.map some).reduceOption = l := by
  induction l with
  | nil => rfl
  | cons x xs ih => simp [List.reduceOption_cons_of_some, ih]

/-- When every task index completes under the schedule, the gather
returns exactly the tasks' results in task order. -/
theorem gather_of_complete {ρ : Type} (tasks : List ρ)
    (schedule : List Nat) (h : ∀ i, i < tasks.length → i ∈ schedule) :
    gather tasks schedule = some tasks := by
  have hslots : gatherSlots tasks schedule = tasks.map some := by
    apply List.ext_getElem?
    intro j
    rw [gatherSlots, gatherSlots_foldl_getElem?, List.getElem?_map]
    rw [List.length_replicate]
    by_cases hj : j < tasks.length
    · simp [h j hj, hj, List.getElem?_eq_getElem hj]
    · simp [hj, List.getElem?_replicate,
            List.getElem?_eq_none (Nat.le_of_not_lt hj)]
  rw [gather, hslots]
  simp [List.all_map, Function.comp, reduceOption_map_some]

/-- C7: `fetch_concurrently` suspends until both gathered fetches have
completed and returns their results aligned by request position —
`[all-users rows, older-than-40 rows]` — for every physical completion
order, including ones where the second query finishes first. -/
theorem fetch_concurrently_order_preserving (db : DB3)
    (schedule : List Nat) (h : ∀ i, i < 2 → i ∈ schedule) :
    fetch_concurrently db schedule =
      some [async_fetch_users db, async_fetch_older_users db] := by
  apply gather_of_complete
  simpa using h

/-- C7 witness: a two-row store and the completion order `[1, 0]` — the
`age > 40` query finishes before the all-users query — still yields the
results in request order. -/
theorem fetch_concurrently_order_preserving_witness :
    (∀ i, i < 2 → i ∈ ([1, 0] : List Nat)) ∧
    fetch_concurrently [(1, "Alice", 30), (2, "Bob", 45)] [1, 0] =
      some [[(1, "Alice", 30), (2, "Bob", 45)], [(2, "Bob", 45)]] :=
  ⟨by decide,
   fetch_concurrently_order_preserving [(1, "Alice", 30), (2, "Bob", 45)]
     [1, 0] (by decide)⟩

/-- C10: In `2-transactional.py`, `with_db_connection` applied to any
function evaluates to `None` (the factory body falls off its end), so
`update_user_email`, `get_user_email` and `update_user_email_and_fail`
are all bound to `None`, and invoking any of them raises `TypeError`
instead of performing the database operation. -/
theorem with_db_connection_v2_yields_none :
    (∀ {β α : Type} (func : Conn → β → α),
      with_db_connection_v2 func = none) ∧
    update_user_email_decorated = none ∧
    get_user_email_decorated = none ∧
    update_user_email_and_fail_decorated = none ∧
    pyCall update_user_email_decorated [(1, "a@x.com")]
        (1, "b@x.com") = CallResult.typeErrorNoneNotCallable ∧
    pyCall get_user_email_decorated [(1, "a@x.com")] 1 =
      CallResult.typeErrorNoneNotCallable ∧
    pyCall update_user_email_and_fail_decorated [(2, "old@x.com")]
        (2, "rollback_test@example.com") =
      CallResult.typeErrorNoneNotCallable :=
  ⟨fun _ => rfl, rfl, rfl, rfl, rfl, rfl, rfl⟩

end AlxMiddleware
